import Mathlib

/-!
Shallow embedding of three components of src/app.py of the nataBridge
repository, and proofs about them:

* the risk classifier calculate_risk_score (src/app.py lines 384-460),
* the threshold alerter check_vital_thresholds (src/app.py lines 820-873),
* the offline sync reconciler sync_push (src/app.py lines 1075-1135).

Modelling conventions:

* A vital reading is an Option ℚ: none models an absent key (dict.get
  returns None), some q a numeric reading.  Python truthiness of a numeric
  field (the guards of the form: if bp_systolic:) is therefore
  "present and nonzero".
* Python raises TypeError when None is compared with a number
  (bp_diastolic >= 110 with bp_diastolic = None).  Both functions that can
  reach such a comparison are embedded with result type Option _, where
  none models the raised exception and some r a normal return of r.
* The reconciler is embedded with the per-item insert collaborator injected
  as a function returning Except String ℤ (error message or new server id),
  following the collaborator signature of the spec; the SQL executed inside
  each branch of the source is the collaborator call.
-/

/-- Input record of the classifier and the alerter: the recognized keys of
the Python dict, each vital present-or-absent. -/
structure TriageData where
  symptoms : List String := []
  bp_systolic : Option ℚ := none
  bp_diastolic : Option ℚ := none
  heart_rate : Option ℚ := none
  temperature : Option ℚ := none
  spo2 : Option ℚ := none
deriving DecidableEq, Repr

/-- Result record of calculate_risk_score. -/
structure RiskResult where
  score : ℕ
  level : String
  factors : List String
deriving DecidableEq, Repr

/-- One alert produced by check_vital_thresholds. -/
structure ThresholdAlert where
  title : String
  message : String
  priority : String
deriving DecidableEq, Repr

/-- Python truthiness of an optional numeric field: None and 0 are falsy. -/
def truthy : Option ℚ → Bool
  | none => false
  | some x => x != 0

/-- Helper for the Python str.title method: uppercase a cased character that
follows a non-cased one, lowercase the others. -/
def pyTitleGo : Bool → List Char → List Char
  | _, [] => []
  | prevAlpha, c :: cs =>
    if c.isAlpha then
      (if prevAlpha then c.toLower else c.toUpper) :: pyTitleGo true cs
    else
      c :: pyTitleGo false cs

/-- Python str.title. -/
def pyTitle (s : String) : String := ⟨pyTitleGo false s.data⟩

/-- The factor label of a symptom: symptom.replace with underscore to space,
then title-cased (src/app.py line 409).  A single-character replace is a map
over the characters. -/
def humanize (s : String) : String :=
  pyTitle ⟨s.data.map (fun c => if c = '_' then ' ' else c)⟩

/-- The fixed symptom weight table danger_signs (src/app.py lines 391-404). -/
def danger_signs : List (String × ℕ) :=
  [("severe_headache", 15),
   ("blurred_vision", 15),
   ("convulsions", 25),
   ("severe_abdominal_pain", 20),
   ("vaginal_bleeding", 25),
   ("fever", 10),
   ("reduced_fetal_movement", 20),
   ("swelling_face_hands", 10),
   ("difficulty_breathing", 20),
   ("chest_pain", 15),
   ("severe_vomiting", 10),
   ("water_breaking_early", 25)]

/-- Whether a symptom tag is in the known vocabulary. -/
def inVocab (s : String) : Bool := (danger_signs.lookup s).isSome

/-- The table weight of a symptom tag, 0 outside the vocabulary. -/
def weightOf (s : String) : ℕ := (danger_signs.lookup s).getD 0

/-- The symptom loop of calculate_risk_score (src/app.py lines 406-409):
accumulate weight and humanized factor label of each known symptom, in input
order. -/
def symptomScan (symptoms : List String) : ℕ × List String :=
  symptoms.foldl
    (fun acc s =>
      match danger_signs.lookup s with
      | some w => (acc.1 + w, acc.2 ++ [humanize s])
      | none => acc)
    (0, [])

/-- The blood pressure block of calculate_risk_score (src/app.py lines
412-424).  Returns none when the Python code raises TypeError: that happens
when bp_systolic is truthy and below 160 while bp_diastolic is absent, since
the disjunct comparing bp_diastolic with 110 is then evaluated on None.
Otherwise returns the score contribution and the optional factor. -/
def bpBlock (sys dia : Option ℚ) : Option (ℕ × Option String) :=
  match sys with
  | none => some (0, none)
  | some s =>
    if s = 0 then some (0, none)
    else if 160 ≤ s then some (25, some "Severe Hypertension")
    else
      match dia with
      | none => none
      | some d =>
        if 110 ≤ d then some (25, some "Severe Hypertension")
        else if 140 ≤ s ∨ 90 ≤ d then some (15, some "Hypertension")
        else if s < 90 ∨ d < 60 then some (15, some "Low Blood Pressure")
        else some (0, none)

/-- The heart rate block of calculate_risk_score (src/app.py lines 426-430). -/
def hrBlock (hr : Option ℚ) : ℕ × Option String :=
  match hr with
  | none => (0, none)
  | some h =>
    if h = 0 then (0, none)
    else if 120 < h ∨ h < 60 then (10, some "Abnormal Heart Rate")
    else (0, none)

/-- The temperature block of calculate_risk_score (src/app.py lines 432-439). -/
def tempBlock (t? : Option ℚ) : ℕ × Option String :=
  match t? with
  | none => (0, none)
  | some t =>
    if t = 0 then (0, none)
    else if 38.5 ≤ t then (15, some "High Fever")
    else if 37.5 ≤ t then (5, some "Mild Fever")
    else (0, none)

/-- The SpO2 block of calculate_risk_score (src/app.py lines 441-448). -/
def spo2Block (o? : Option ℚ) : ℕ × Option String :=
  match o? with
  | none => (0, none)
  | some o =>
    if o = 0 then (0, none)
    else if o < 90 then (25, some "Critical Oxygen Level")
    else if o < 95 then (10, some "Low Oxygen Level")
    else (0, none)

/-- The final score-to-level mapping of calculate_risk_score (src/app.py
lines 450-458). -/
def determine_level (score : ℕ) : String :=
  if 50 ≤ score then "emergency"
  else if 30 ≤ score then "high_risk"
  else if 15 ≤ score then "caution"
  else "normal"

/-- calculate_risk_score (src/app.py lines 384-460).  none models the
TypeError raised inside the blood pressure block; otherwise the score is the
sum of the block contributions and the factors are appended in evaluation
order: symptoms, blood pressure, heart rate, temperature, SpO2. -/
def calculate_risk_score (data : TriageData) : Option RiskResult :=
  let s := symptomScan data.symptoms
  match bpBlock data.bp_systolic data.bp_diastolic with
  | none => none
  | some bp =>
    let hr := hrBlock data.heart_rate
    let t := tempBlock data.temperature
    let o := spo2Block data.spo2
    let score := s.1 + bp.1 + hr.1 + t.1 + o.1
    some { score := score
           level := determine_level score
           factors := s.2 ++ bp.2.toList ++ hr.2.toList ++ t.2.toList ++ o.2.toList }

/-- Rendering of a numeric reading inside a Python f-string.  Integral
values render exactly as Python renders an int; non-integral values are
rendered as num/den, an abstraction of Python float formatting (every claim
evaluates messages at integral readings only). -/
def pyNum (q : ℚ) : String :=
  if q.den = 1 then toString q.num
  else toString q.num ++ "/" ++ toString q.den

/-- Rendering of an optional reading inside a Python f-string: None renders
as the four letter word None. -/
def pyOptNum : Option ℚ → String
  | none => "None"
  | some q => pyNum q

/-- The blood pressure block of check_vital_thresholds (src/app.py lines
823-838), with the same TypeError case as bpBlock. -/
def bpAlerts (sys dia : Option ℚ) : Option (List ThresholdAlert) :=
  match sys with
  | none => some []
  | some s =>
    if s = 0 then some []
    else if 160 ≤ s then
      some [{ title := "Critical Blood Pressure"
              message := "BP reading: " ++ pyNum s ++ "/" ++ pyOptNum dia ++
                " mmHg - Immediate attention required"
              priority := "critical" }]
    else
      match dia with
      | none => none
      | some d =>
        if 110 ≤ d then
          some [{ title := "Critical Blood Pressure"
                  message := "BP reading: " ++ pyNum s ++ "/" ++ pyNum d ++
                    " mmHg - Immediate attention required"
                  priority := "critical" }]
        else if 140 ≤ s ∨ 90 ≤ d then
          some [{ title := "High Blood Pressure"
                  message := "BP reading: " ++ pyNum s ++ "/" ++ pyNum d ++
                    " mmHg - Monitor closely"
                  priority := "high" }]
        else some []

/-- The heart rate block of check_vital_thresholds (src/app.py lines
840-847): note the lower bound 50 differs from the classifier. -/
def hrAlerts (hr : Option ℚ) : List ThresholdAlert :=
  match hr with
  | none => []
  | some h =>
    if h = 0 then []
    else if 120 < h ∨ h < 50 then
      [{ title := "Abnormal Heart Rate"
         message := "Heart rate: " ++ pyNum h ++ " bpm - Requires evaluation"
         priority := "high" }]
    else []

/-- The SpO2 block of check_vital_thresholds (src/app.py lines 849-862). -/
def spo2Alerts (o? : Option ℚ) : List ThresholdAlert :=
  match o? with
  | none => []
  | some o =>
    if o = 0 then []
    else if o < 90 then
      [{ title := "Critical Oxygen Level"
         message := "SpO2: " ++ pyNum o ++ "% - Immediate medical attention required"
         priority := "critical" }]
    else if o < 95 then
      [{ title := "Low Oxygen Level"
         message := "SpO2: " ++ pyNum o ++ "% - Monitor closely"
         priority := "high" }]
    else []

/-- The temperature block of check_vital_thresholds (src/app.py lines
864-871). -/
def tempAlerts (t? : Option ℚ) : List ThresholdAlert :=
  match t? with
  | none => []
  | some t =>
    if t = 0 then []
    else if 39 ≤ t then
      [{ title := "High Fever"
         message := "Temperature: " ++ pyNum t ++ "°C - Medical attention required"
         priority := "high" }]
    else []

/-- check_vital_thresholds (src/app.py lines 820-873).  none models the
TypeError in the blood pressure block; otherwise the alert list accumulates
in evaluation order: blood pressure, heart rate, SpO2, temperature. -/
def check_vital_thresholds (data : TriageData) : Option (List ThresholdAlert) :=
  match bpAlerts data.bp_systolic data.bp_diastolic with
  | none => none
  | some bp =>
    some (bp ++ hrAlerts data.heart_rate ++ spo2Alerts data.spo2 ++
      tempAlerts data.temperature)

/-- One item of a sync push batch (src/app.py lines 1083-1088): the keys read
from the request item.  The payload type is a parameter, since the payload
fields are only forwarded to the insert collaborator. -/
structure SyncItem (α : Type) where
  table : Option String
  action : Option String
  record : α
  local_id : ℤ

/-- A success entry of the reconciler output (src/app.py lines 1108, 1126). -/
structure SuccessRec where
  local_id : ℤ
  server_id : ℤ
deriving DecidableEq, Repr

/-- A failure entry of the reconciler output (src/app.py line 1129). -/
structure FailRec where
  local_id : ℤ
  error : String
deriving DecidableEq, Repr

/-- The accumulated output of sync_push: the results dict with its success
and failed lists (src/app.py line 1078). -/
structure SyncResults where
  success : List SuccessRec := []
  failed : List FailRec := []
deriving DecidableEq, Repr

/-- Whether an item reaches an insert at all: action is create and the table
is one of the two known tables (src/app.py lines 1090, 1091, 1110). -/
def knownCreateTarget {α : Type} (item : SyncItem α) : Bool :=
  item.action == some "create" &&
    (item.table == some "mothers" || item.table == some "home_visits")

/-- The body of the per-item loop of sync_push (src/app.py lines 1083-1129):
for a recognized item invoke the insert collaborator, appending to the
success list on a returned id and to the failed list on a raised error; any
other item appends nothing. -/
def processItem {α : Type} (insert : String → α → Except String ℤ)
    (acc : SyncResults) (item : SyncItem α) : SyncResults :=
  if knownCreateTarget item then
    match insert (item.table.getD "") item.record with
    | .ok sid => { acc with success := acc.success ++ [⟨item.local_id, sid⟩] }
    | .error e => { acc with failed := acc.failed ++ [⟨item.local_id, e⟩] }
  else acc

/-- sync_push (src/app.py lines 1075-1135), with the per-item database insert
injected as the collaborator function. -/
def sync_push {α : Type} (items : List (SyncItem α))
    (insert : String → α → Except String ℤ) : SyncResults :=
  items.foldl (processItem insert) {}

/-- The success entry an item contributes, if any. -/
def successOf {α : Type} (insert : String → α → Except String ℤ)
    (item : SyncItem α) : Option SuccessRec :=
  if knownCreateTarget item then
    match insert (item.table.getD "") item.record with
    | .ok sid => some ⟨item.local_id, sid⟩
    | .error _ => none
  else none

/-- The failure entry an item contributes, if any. -/
def failureOf {α : Type} (insert : String → α → Except String ℤ)
    (item : SyncItem α) : Option FailRec :=
  if knownCreateTarget item then
    match insert (item.table.getD "") item.record with
    | .ok _ => none
    | .error e => some ⟨item.local_id, e⟩
  else none

/-- A sync result as the spec describes it: either a success record or a
failure record, in one common type, so that a single result sequence can be
stated. -/
inductive SyncResult where
  | ok (local_id server_id : ℤ)
  | err (local_id : ℤ) (error : String)
deriving DecidableEq, Repr

/-- The local id a result is about. -/
def SyncResult.lid : SyncResult → ℤ
  | .ok l _ => l
  | .err l _ => l

/-- The output of sync_push read as one sequence, in the order of the
returned results dict: the success list first, then the failed list. -/
def combined (r : SyncResults) : List SyncResult :=
  r.success.map (fun s => .ok s.local_id s.server_id) ++
    r.failed.map (fun f => .err f.local_id f.error)

/-- The output of sync_push read as one sequence with the failed list first:
the other possible single-sequence reading of the results dict. -/
def combinedRev (r : SyncResults) : List SyncResult :=
  r.failed.map (fun f => .err f.local_id f.error) ++
    r.success.map (fun s => .ok s.local_id s.server_id)

/-- The result an item contributes, if any, as a SyncResult. -/
def resultOf {α : Type} (insert : String → α → Except String ℤ)
    (item : SyncItem α) : Option SyncResult :=
  if knownCreateTarget item then
    match insert (item.table.getD "") item.record with
    | .ok sid => some (.ok item.local_id sid)
    | .error e => some (.err item.local_id e)
  else none

/-- A concrete collaborator for counterexamples and witnesses: fails on odd
payloads with a fixed message, otherwise assigns server id 100 plus the
payload. -/
def demoInsert : String → ℕ → Except String ℤ :=
  fun _ n => if n % 2 = 1 then .error "db error" else .ok (100 + (n : ℤ))

/-- A concrete three-item batch: under demoInsert the first and third items
fail and the second succeeds. -/
def demoItems : List (SyncItem ℕ) :=
  [⟨some "mothers", some "create", 1, 1⟩,
   ⟨some "mothers", some "create", 2, 2⟩,
   ⟨some "home_visits", some "create", 3, 3⟩]

/-- Severity rank of a level string, for stating monotonicity of the
score-to-level mapping. -/
def levelRank (level : String) : ℕ :=
  if level = "normal" then 0
  else if level = "caution" then 1
  else if level = "high_risk" then 2
  else 3

/-- The symptom loop starting from an arbitrary accumulator. -/
lemma symptomScan_go (symptoms : List String) (sc : ℕ) (fs : List String) :
    symptoms.foldl
      (fun acc s =>
        match danger_signs.lookup s with
        | some w => (acc.1 + w, acc.2 ++ [humanize s])
        | none => acc)
      (sc, fs) =
    (sc + ((symptoms.filter inVocab).map weightOf).sum,
     fs ++ (symptoms.filter inVocab).map humanize) := by
  induction symptoms generalizing sc fs with
  | nil => simp
  | cons s rest ih =>
    cases h : danger_signs.lookup s with
    | none =>
      simp only [List.foldl_cons, h]
      rw [ih]
      simp [List.filter_cons, inVocab, h]
    | some w =>
      simp only [List.foldl_cons, h]
      rw [ih]
      simp [List.filter_cons, inVocab, h, weightOf, Nat.add_assoc]

/-- Closed form of the symptom loop: weight sum and humanized labels of the
known symptoms, in input order. -/
lemma symptomScan_eq (symptoms : List String) :
    symptomScan symptoms =
      (((symptoms.filter inVocab).map weightOf).sum,
       (symptoms.filter inVocab).map humanize) := by
  simpa using symptomScan_go symptoms 0 []

/-- The reconciler loop starting from an arbitrary accumulator: each list
grows by the in-order contributions of the processed items. -/
lemma sync_push_go {α : Type} (items : List (SyncItem α))
    (insert : String → α → Except String ℤ) (acc : SyncResults) :
    items.foldl (processItem insert) acc =
      { success := acc.success ++ items.filterMap (successOf insert),
        failed := acc.failed ++ items.filterMap (failureOf insert) } := by
  induction items generalizing acc with
  | nil => simp
  | cons it rest ih =>
    simp only [List.foldl_cons]
    rw [ih]
    by_cases hk : knownCreateTarget it
    · cases hins : insert (it.table.getD "") it.record with
      | ok sid =>
        simp [processItem, successOf, failureOf, hk, hins, List.filterMap_cons]
      | error e =>
        simp [processItem, successOf, failureOf, hk, hins, List.filterMap_cons]
    · simp [processItem, successOf, failureOf, hk, List.filterMap_cons]

/-- Closed form of sync_push: the success list is the in-order sequence of
success contributions and the failed list the in-order sequence of failure
contributions. -/
lemma sync_push_eq {α : Type} (items : List (SyncItem α))
    (insert : String → α → Except String ℤ) :
    sync_push items insert =
      { success := items.filterMap (successOf insert),
        failed := items.filterMap (failureOf insert) } := by
  simpa [sync_push] using sync_push_go items insert {}

/-- The blood pressure block either raises or contributes exactly one of
four outcomes. -/
lemma bpBlock_cases (sys dia : Option ℚ) (p : ℕ × Option String)
    (h : bpBlock sys dia = some p) :
    p = (0, none) ∨ p = (25, some "Severe Hypertension") ∨
      p = (15, some "Hypertension") ∨ p = (15, some "Low Blood Pressure") := by
  cases sys with
  | none =>
    simp only [bpBlock, Option.some.injEq] at h
    exact Or.inl h.symm
  | some s =>
    by_cases h0 : s = 0
    · simp [bpBlock, h0] at h
      exact Or.inl h.symm
    · by_cases h160 : 160 ≤ s
      · simp [bpBlock, h0, h160] at h
        exact Or.inr (Or.inl h.symm)
      · cases dia with
        | none => simp [bpBlock, h0, h160] at h
        | some d =>
          by_cases h110 : 110 ≤ d
          · simp [bpBlock, h0, h160, h110] at h
            exact Or.inr (Or.inl h.symm)
          · by_cases hmid : 140 ≤ s ∨ 90 ≤ d
            · simp [bpBlock, h0, h160, h110, hmid] at h
              exact Or.inr (Or.inr (Or.inl h.symm))
            · by_cases hlow : s < 90 ∨ d < 60
              · simp [bpBlock, h0, h160, h110, hmid, hlow] at h
                exact Or.inr (Or.inr (Or.inr h.symm))
              · simp [bpBlock, h0, h160, h110, hmid, hlow] at h
                exact Or.inl h.symm

/-- The heart rate block contributes one of two outcomes. -/
lemma hrBlock_cases (hr : Option ℚ) :
    hrBlock hr = (0, none) ∨ hrBlock hr = (10, some "Abnormal Heart Rate") := by
  cases hr with
  | none => exact Or.inl rfl
  | some h =>
    by_cases h0 : h = 0
    · simp [hrBlock, h0]
    · by_cases hb : 120 < h ∨ h < 60
      · simp [hrBlock, h0, hb]
      · simp [hrBlock, h0, hb]

/-- The temperature block contributes one of three outcomes. -/
lemma tempBlock_cases (t? : Option ℚ) :
    tempBlock t? = (0, none) ∨ tempBlock t? = (15, some "High Fever") ∨
      tempBlock t? = (5, some "Mild Fever") := by
  cases t? with
  | none => exact Or.inl rfl
  | some t =>
    by_cases h0 : t = 0
    · simp [tempBlock, h0]
    · by_cases hhi : (38.5 : ℚ) ≤ t
      · simp [tempBlock, h0, hhi]
      · by_cases hmid : (37.5 : ℚ) ≤ t
        · simp [tempBlock, h0, hhi, hmid]
        · simp [tempBlock, h0, hhi, hmid]

/-- The SpO2 block contributes one of three outcomes. -/
lemma spo2Block_cases (o? : Option ℚ) :
    spo2Block o? = (0, none) ∨ spo2Block o? = (25, some "Critical Oxygen Level") ∨
      spo2Block o? = (10, some "Low Oxygen Level") := by
  cases o? with
  | none => exact Or.inl rfl
  | some o =>
    by_cases h0 : o = 0
    · simp [spo2Block, h0]
    · by_cases hlo : o < 90
      · simp [spo2Block, h0, hlo]
      · by_cases hmid : o < 95
        · simp [spo2Block, h0, hlo, hmid]
        · simp [spo2Block, h0, hlo, hmid]

/-- A symptom scan with no factors has score zero. -/
lemma symptomScan_score_of_factors_nil (symptoms : List String)
    (h : (symptomScan symptoms).2 = []) : (symptomScan symptoms).1 = 0 := by
  rw [symptomScan_eq] at h ⊢
  simp only at h ⊢
  rw [List.map_eq_nil_iff] at h
  simp [h]

/-- An option with empty toList is none. -/
lemma optToList_nil {β : Type} {x : Option β} (h : x.toList = []) : x = none := by
  cases x <;> simp_all

/-- The rank of the level of a score, in closed form. -/
lemma levelRank_determine (s : ℕ) :
    levelRank (determine_level s) =
      if 50 ≤ s then 3 else if 30 ≤ s then 2 else if 15 ≤ s then 1 else 0 := by
  unfold determine_level levelRank
  split_ifs <;> simp_all

/-- C1 counterexample: on a concrete three-item batch whose first and third
inserts fail and whose second succeeds, neither single-sequence reading of
the output of sync_push (success list first, or failed list first) equals
the in-input-order sequence of per-item results: the local id orders are
[2, 1, 3] and [1, 3, 2] against the input order [1, 2, 3].  The output is
two separate lists, not one order-preserving result sequence. -/
theorem claim_C1_counterexample :
    (demoItems.filterMap (resultOf demoInsert)).map SyncResult.lid = [1, 2, 3] ∧
    combined (sync_push demoItems demoInsert) ≠
      demoItems.filterMap (resultOf demoInsert) ∧
    (combined (sync_push demoItems demoInsert)).map SyncResult.lid = [2, 1, 3] ∧
    combinedRev (sync_push demoItems demoInsert) ≠
      demoItems.filterMap (resultOf demoInsert) ∧
    (combinedRev (sync_push demoItems demoInsert)).map SyncResult.lid = [1, 3, 2] := by
  decide

/-- C1 amended: each of the two output lists of sync_push separately
preserves input order: the success list is exactly the in-order sequence of
success contributions of the batch items, and the failed list exactly the
in-order sequence of failure contributions. -/
theorem claim_C1_per_list_order {α : Type} (items : List (SyncItem α))
    (insert : String → α → Except String ℤ) :
    (sync_push items insert).success = items.filterMap (successOf insert) ∧
    (sync_push items insert).failed = items.filterMap (failureOf insert) := by
  rw [sync_push_eq]
  exact ⟨rfl, rfl⟩

/-- C6: a per-item insert failure is isolated.  For a recognized item
placed anywhere in the batch, if its insert fails with message e then the
failed list records its local id with e between the contributions of the
items before and after it, while the success list is exactly the
contributions of the other items: no batch abort, no rollback of earlier
successes.  If its insert succeeds, the success list records its local id
with the returned server id, dually. -/
theorem claim_C6_failure_isolated {α : Type}
    (insert : String → α → Except String ℤ)
    (pre post : List (SyncItem α)) (item : SyncItem α)
    (hk : knownCreateTarget item = true) :
    (∀ e, insert (item.table.getD "") item.record = .error e →
      (sync_push (pre ++ item :: post) insert).failed =
        (sync_push pre insert).failed ++
          ⟨item.local_id, e⟩ :: (sync_push post insert).failed ∧
      (sync_push (pre ++ item :: post) insert).success =
        (sync_push pre insert).success ++ (sync_push post insert).success) ∧
    (∀ sid, insert (item.table.getD "") item.record = .ok sid →
      (sync_push (pre ++ item :: post) insert).success =
        (sync_push pre insert).success ++
          ⟨item.local_id, sid⟩ :: (sync_push post insert).success ∧
      (sync_push (pre ++ item :: post) insert).failed =
        (sync_push pre insert).failed ++ (sync_push post insert).failed) := by
  constructor
  · intro e he
    simp [sync_push_eq, List.filterMap_append, List.filterMap_cons,
      successOf, failureOf, hk, he]
  · intro sid hs
    simp [sync_push_eq, List.filterMap_append, List.filterMap_cons,
      successOf, failureOf, hk, hs]

/-- C6 witness: in a concrete batch the middle item fails under demoInsert
while its neighbours succeed; the theorem instantiates to the recorded
failure entry between the neighbour contributions. -/
theorem claim_C6_witness :
    (sync_push ([(⟨some "mothers", some "create", 2, 2⟩ : SyncItem ℕ)] ++
        (⟨some "mothers", some "create", 1, 5⟩ : SyncItem ℕ) ::
        [(⟨some "home_visits", some "create", 4, 6⟩ : SyncItem ℕ)]) demoInsert).failed =
      (sync_push [(⟨some "mothers", some "create", 2, 2⟩ : SyncItem ℕ)] demoInsert).failed ++
        ⟨5, "db error"⟩ ::
          (sync_push [(⟨some "home_visits", some "create", 4, 6⟩ : SyncItem ℕ)] demoInsert).failed ∧
    (sync_push ([(⟨some "mothers", some "create", 2, 2⟩ : SyncItem ℕ)] ++
        (⟨some "mothers", some "create", 1, 5⟩ : SyncItem ℕ) ::
        [(⟨some "home_visits", some "create", 4, 6⟩ : SyncItem ℕ)]) demoInsert).success =
      (sync_push [(⟨some "mothers", some "create", 2, 2⟩ : SyncItem ℕ)] demoInsert).success ++
        (sync_push [(⟨some "home_visits", some "create", 4, 6⟩ : SyncItem ℕ)] demoInsert).success :=
  (claim_C6_failure_isolated demoInsert
    [⟨some "mothers", some "create", 2, 2⟩]
    [⟨some "home_visits", some "create", 4, 6⟩]
    ⟨some "mothers", some "create", 1, 5⟩ (by decide)).1 "db error" rfl

/-- C7: an item whose action is not create, or whose table is not one of
the two known tables, contributes nothing: the output of sync_push on a
batch containing it equals the output on the batch with it removed, so it
appears in neither the success list nor the failed list. -/
theorem claim_C7_unknown_skipped {α : Type}
    (insert : String → α → Except String ℤ)
    (pre post : List (SyncItem α)) (item : SyncItem α)
    (h : item.action ≠ some "create" ∨
      (item.table ≠ some "mothers" ∧ item.table ≠ some "home_visits")) :
    sync_push (pre ++ item :: post) insert = sync_push (pre ++ post) insert := by
  have hk : knownCreateTarget item = false := by
    rcases h with h | ⟨h1, h2⟩
    · simp [knownCreateTarget, h]
    · simp [knownCreateTarget, h1, h2]
  rw [sync_push_eq, sync_push_eq]
  simp [List.filterMap_append, List.filterMap_cons, successOf, failureOf, hk]

/-- C7 witness: an update-action item prepended to the demo batch leaves the
output of sync_push unchanged. -/
theorem claim_C7_witness :
    sync_push ((⟨some "mothers", some "update", 7, 9⟩ : SyncItem ℕ) :: demoItems)
        demoInsert =
      sync_push demoItems demoInsert :=
  claim_C7_unknown_skipped demoInsert [] demoItems
    ⟨some "mothers", some "update", 7, 9⟩ (Or.inl (by decide))

/-- C2 failing input: on the input with bp_systolic 150 and no other field,
both calculate_risk_score and check_vital_thresholds raise (the blood
pressure guard passes, systolic is below 160, and the disjunct comparing the
absent diastolic with 110 is evaluated on None), modelled as the result
none.  The claim says both functions return normally whenever any subset of
the recognized vital fields is present. -/
theorem claim_C2_typeerror :
    calculate_risk_score { bp_systolic := some 150 } = none ∧
    check_vital_thresholds { bp_systolic := some 150 } = none := by
  exact ⟨rfl, rfl⟩

/-- C3: on a duplicate-free symptom list and an empty vitals record, the
classifier returns normally, its score is the sum of the danger sign table
weights of the symptoms in the known vocabulary, and its factors are exactly
the humanized labels of those symptoms: out-of-vocabulary symptoms
contribute no score and no factor entry. -/
theorem claim_C3_symptom_sum (syms : List String) (h : syms.Nodup) :
    ∃ r, calculate_risk_score { symptoms := syms } = some r ∧
      r.score = ((syms.filter inVocab).map weightOf).sum ∧
      r.factors = (syms.filter inVocab).map humanize := by
  refine ⟨_, rfl, ?_, ?_⟩ <;>
    simp [calculate_risk_score, bpBlock, hrBlock, tempBlock, spo2Block,
      symptomScan_eq]

/-- C3 witness: the list with a known symptom fever and an unknown tag. -/
theorem claim_C3_witness :
    ∃ r, calculate_risk_score { symptoms := ["fever", "dancing"] } = some r ∧
      r.score = (((["fever", "dancing"].filter inVocab)).map weightOf).sum ∧
      r.factors = (["fever", "dancing"].filter inVocab).map humanize :=
  claim_C3_symptom_sum ["fever", "dancing"] (by decide)

/-- C4: the score-to-level mapping is deterministic, boundary-exact and
monotone: scores of at least 50 map to emergency, of 30 to 49 to high_risk,
of 15 to 29 to caution, below 15 to normal; the six boundary values map as
claimed; the severity rank never decreases as the score grows; and the
level returned by calculate_risk_score is always this function of its
returned score, so no two levels overlap. -/
theorem claim_C4_level_mapping :
    (∀ s : ℕ, 50 ≤ s → determine_level s = "emergency") ∧
    (∀ s : ℕ, 30 ≤ s → s < 50 → determine_level s = "high_risk") ∧
    (∀ s : ℕ, 15 ≤ s → s < 30 → determine_level s = "caution") ∧
    (∀ s : ℕ, s < 15 → determine_level s = "normal") ∧
    (determine_level 49 = "high_risk" ∧ determine_level 50 = "emergency" ∧
     determine_level 29 = "caution" ∧ determine_level 30 = "high_risk" ∧
     determine_level 14 = "normal" ∧ determine_level 15 = "caution") ∧
    (∀ s t : ℕ, s ≤ t →
      levelRank (determine_level s) ≤ levelRank (determine_level t)) ∧
    (∀ (data : TriageData) (r : RiskResult),
      calculate_risk_score data = some r → r.level = determine_level r.score) := by
  refine ⟨?_, ?_, ?_, ?_, by decide, ?_, ?_⟩
  · intro s h
    simp [determine_level, h]
  · intro s h1 h2
    have h3 : ¬ 50 ≤ s := by omega
    simp [determine_level, h1, h3]
  · intro s h1 h2
    have h3 : ¬ 50 ≤ s := by omega
    have h4 : ¬ 30 ≤ s := by omega
    simp [determine_level, h1, h3, h4]
  · intro s h1
    have h3 : ¬ 50 ≤ s := by omega
    have h4 : ¬ 30 ≤ s := by omega
    have h5 : ¬ 15 ≤ s := by omega
    simp [determine_level, h3, h4, h5]
  · intro s t hst
    rw [levelRank_determine, levelRank_determine]
    split_ifs <;> omega
  · intro data r h
    simp only [calculate_risk_score] at h
    split at h
    · exact Option.noConfusion h
    · cases h
      rfl

/-- C4 witness: boundary and monotonicity instances, and the link between
the classifier result and the mapping on the empty input. -/
theorem claim_C4_witness :
    determine_level 60 = "emergency" ∧ determine_level 31 = "high_risk" ∧
    determine_level 20 = "caution" ∧ determine_level 3 = "normal" ∧
    levelRank (determine_level 7) ≤ levelRank (determine_level 80) ∧
    ({ score := 0, level := "normal", factors := [] } : RiskResult).level =
      determine_level ({ score := 0, level := "normal", factors := [] } : RiskResult).score :=
  ⟨claim_C4_level_mapping.1 60 (by decide),
   claim_C4_level_mapping.2.1 31 (by decide) (by decide),
   claim_C4_level_mapping.2.2.1 20 (by decide) (by decide),
   claim_C4_level_mapping.2.2.2.1 3 (by decide),
   claim_C4_level_mapping.2.2.2.2.2.1 7 80 (by decide),
   claim_C4_level_mapping.2.2.2.2.2.2 {} { score := 0, level := "normal", factors := [] }
     (by decide)⟩

/-- C5 counterexample: on the input with systolic 170 and diastolic 120 the
classifier returns score 25 with the single factor Severe Hypertension, and
level caution, not emergency as the claim states: 25 is below the emergency
breakpoint 50. -/
theorem claim_C5_counterexample :
    calculate_risk_score { bp_systolic := some 170, bp_diastolic := some 120 } =
      some { score := 25, level := "caution", factors := ["Severe Hypertension"] } ∧
    "caution" ≠ "emergency" := by
  exact ⟨rfl, by decide⟩

/-- C5 amended: blood pressure is evaluated only when systolic is present
(removing the diastolic of a systolic-free input does not change the
result); the blood pressure tiers are mutually exclusive, contributing at
most one of the four possible outcomes; the severe tier is checked first
and short-circuits the lower ones; and on systolic 170 with diastolic 120
the result has level caution, score 25, and factors containing Severe
Hypertension. -/
theorem claim_C5_bp_tiers :
    (∀ data : TriageData, data.bp_systolic = none →
      calculate_risk_score data =
        calculate_risk_score { data with bp_diastolic := none }) ∧
    (∀ (sys dia : Option ℚ) (p : ℕ × Option String), bpBlock sys dia = some p →
      p = (0, none) ∨ p = (25, some "Severe Hypertension") ∨
        p = (15, some "Hypertension") ∨ p = (15, some "Low Blood Pressure")) ∧
    (∀ s d : ℚ, s ≠ 0 → 160 ≤ s ∨ 110 ≤ d →
      bpBlock (some s) (some d) = some (25, some "Severe Hypertension")) ∧
    (calculate_risk_score { bp_systolic := some 170, bp_diastolic := some 120 } =
      some { score := 25, level := "caution", factors := ["Severe Hypertension"] }) := by
  refine ⟨?_, bpBlock_cases, ?_, rfl⟩
  · intro data h
    cases data with
    | mk sy s d hr t o =>
      simp only at h
      subst h
      rfl
  · intro s d hs hsev
    by_cases h160 : 160 ≤ s
    · simp [bpBlock, hs, h160]
    · have h110 : 110 ≤ d := hsev.resolve_left h160
      simp [bpBlock, hs, h160, h110]

/-- C5 witness: a diastolic-only input is unchanged by dropping the
diastolic, and the severe tier fires on 170 over 120. -/
theorem claim_C5_witness :
    calculate_risk_score { bp_diastolic := some 120 } =
      calculate_risk_score ({} : TriageData) ∧
    bpBlock (some 170) (some 120) = some (25, some "Severe Hypertension") :=
  ⟨claim_C5_bp_tiers.1 { bp_diastolic := some 120 } rfl,
   claim_C5_bp_tiers.2.2.1 170 120 (by norm_num) (Or.inl (by norm_num))⟩

/-- C8 counterexample: a reading of 0 satisfies spo2 below 90 but yields no
alert at all, because 0 is falsy in the guard, so the claimed band (below
90 gives exactly one critical alert) fails at spo2 = 0. -/
theorem claim_C8_counterexample :
    check_vital_thresholds { spo2 := some 0 } = some [] ∧ (0 : ℚ) < 90 := by
  exact ⟨rfl, by norm_num⟩

/-- C8 amended: on the observation with only spo2 = 88 the alerter returns
exactly one alert, with priority critical and a message containing the
literal reading 88; and for nonzero readings the bands are mutually
exclusive: below 90 exactly one critical alert, from 90 below 95 exactly
one high alert, from 95 none.  A reading of exactly 0 is falsy and yields
no alert. -/
theorem claim_C8_spo2_bands :
    (∃ a, check_vital_thresholds { spo2 := some 88 } = some [a] ∧
      a.priority = "critical" ∧
      ∃ pre post, a.message = pre ++ "88" ++ post) ∧
    (∀ q : ℚ, q ≠ 0 → q < 90 →
      ∃ a, check_vital_thresholds { spo2 := some q } = some [a] ∧
        a.priority = "critical") ∧
    (∀ q : ℚ, 90 ≤ q → q < 95 →
      ∃ a, check_vital_thresholds { spo2 := some q } = some [a] ∧
        a.priority = "high") ∧
    (∀ q : ℚ, 95 ≤ q → check_vital_thresholds { spo2 := some q } = some []) := by
  refine ⟨?_, ?_, ?_, ?_⟩
  · exact ⟨_, rfl, rfl,
      "SpO2: ", "% - Immediate medical attention required", by decide⟩
  · intro q hq hlo
    refine ⟨{ title := "Critical Oxygen Level"
              message := "SpO2: " ++ pyNum q ++ "% - Immediate medical attention required"
              priority := "critical" }, ?_, rfl⟩
    simp [check_vital_thresholds, bpAlerts, hrAlerts, spo2Alerts, tempAlerts,
      hq, hlo]
  · intro q h90 h95
    have hq : q ≠ 0 := by intro h; rw [h] at h90; norm_num at h90
    have hlo : ¬ q < 90 := not_lt.mpr h90
    refine ⟨{ title := "Low Oxygen Level"
              message := "SpO2: " ++ pyNum q ++ "% - Monitor closely"
              priority := "high" }, ?_, rfl⟩
    simp [check_vital_thresholds, bpAlerts, hrAlerts, spo2Alerts, tempAlerts,
      hq, hlo, h95]
  · intro q h95
    have hq : q ≠ 0 := by intro h; rw [h] at h95; norm_num at h95
    have hlo : ¬ q < 90 := by linarith
    have hmid : ¬ q < 95 := not_lt.mpr h95
    simp [check_vital_thresholds, bpAlerts, hrAlerts, spo2Alerts, tempAlerts,
      hq, hlo, hmid]

/-- C8 witness: band instances at the readings 40, 92 and 99. -/
theorem claim_C8_witness :
    (∃ a, check_vital_thresholds { spo2 := some 40 } = some [a] ∧
      a.priority = "critical") ∧
    (∃ a, check_vital_thresholds { spo2 := some 92 } = some [a] ∧
      a.priority = "high") ∧
    check_vital_thresholds { spo2 := some 99 } = some [] :=
  ⟨claim_C8_spo2_bands.2.1 40 (by norm_num) (by norm_num),
   claim_C8_spo2_bands.2.2.1 92 (by norm_num) (by norm_num),
   claim_C8_spo2_bands.2.2.2 99 (by norm_num)⟩

/-- C9: whenever the classifier returns normally, empty factors force score
zero (every rule that adds to the score also appends a factor), and hence a
level other than normal implies a non-empty factors list. -/
theorem claim_C9_nonempty_factors (data : TriageData) (r : RiskResult)
    (h : calculate_risk_score data = some r) :
    (r.factors = [] → r.score = 0) ∧
    (r.level ≠ "normal" → r.factors ≠ []) := by
  simp only [calculate_risk_score] at h
  cases hbp : bpBlock data.bp_systolic data.bp_diastolic with
  | none => rw [hbp] at h; exact Option.noConfusion h
  | some bp =>
    rw [hbp] at h
    cases h
    have hfac0 : (symptomScan data.symptoms).2 = [] ∧ bp.2.toList = [] ∧
        (hrBlock data.heart_rate).2.toList = [] ∧
        (tempBlock data.temperature).2.toList = [] ∧
        (spo2Block data.spo2).2.toList = [] →
        (symptomScan data.symptoms).1 + bp.1 + (hrBlock data.heart_rate).1 +
          (tempBlock data.temperature).1 + (spo2Block data.spo2).1 = 0 := by
      rintro ⟨f1, f2, f3, f4, f5⟩
      have e1 := symptomScan_score_of_factors_nil data.symptoms f1
      have e2 : bp.1 = 0 := by
        rcases bpBlock_cases _ _ _ hbp with hc | hc | hc | hc <;>
          simp [hc] at f2 ⊢
      have e3 : (hrBlock data.heart_rate).1 = 0 := by
        rcases hrBlock_cases data.heart_rate with hc | hc <;> simp [hc] at f3 ⊢
      have e4 : (tempBlock data.temperature).1 = 0 := by
        rcases tempBlock_cases data.temperature with hc | hc | hc <;>
          simp [hc] at f4 ⊢
      have e5 : (spo2Block data.spo2).1 = 0 := by
        rcases spo2Block_cases data.spo2 with hc | hc | hc <;> simp [hc] at f5 ⊢
      omega
    constructor
    · intro hfac
      simp only [List.append_eq_nil] at hfac
      exact hfac0 ⟨hfac.1.1.1.1, hfac.1.1.1.2, hfac.1.1.2, hfac.1.2, hfac.2⟩
    · intro hlvl hfac
      apply hlvl
      simp only [List.append_eq_nil] at hfac
      have h0 := hfac0 ⟨hfac.1.1.1.1, hfac.1.1.1.2, hfac.1.1.2, hfac.1.2, hfac.2⟩
      simp only [h0]
      rfl

/-- C9 witness: the single symptom convulsions gives level caution with the
non-empty factor list. -/
theorem claim_C9_witness :
    (({ score := 25, level := "caution", factors := ["Convulsions"] } :
        RiskResult).factors = [] →
      ({ score := 25, level := "caution", factors := ["Convulsions"] } :
        RiskResult).score = 0) ∧
    (({ score := 25, level := "caution", factors := ["Convulsions"] } :
        RiskResult).level ≠ "normal" →
      ({ score := 25, level := "caution", factors := ["Convulsions"] } :
        RiskResult).factors ≠ []) :=
  claim_C9_nonempty_factors { symptoms := ["convulsions"] }
    { score := 25, level := "caution", factors := ["Convulsions"] } (by decide)

/-- C10: a reading of exactly 0 in any of the four truthiness-guarded
fields (systolic, heart rate, temperature, SpO2) is treated as if the
field were absent, by the classifier and by the alerter alike: replacing
some 0 by none in that field never changes the result, so the value 0
contributes no score, no factor and no alert although the stated bands
would otherwise match it. -/
theorem claim_C10_zero_as_absent (data : TriageData) :
    (calculate_risk_score { data with bp_systolic := some 0 } =
      calculate_risk_score { data with bp_systolic := none }) ∧
    (calculate_risk_score { data with heart_rate := some 0 } =
      calculate_risk_score { data with heart_rate := none }) ∧
    (calculate_risk_score { data with temperature := some 0 } =
      calculate_risk_score { data with temperature := none }) ∧
    (calculate_risk_score { data with spo2 := some 0 } =
      calculate_risk_score { data with spo2 := none }) ∧
    (check_vital_thresholds { data with bp_systolic := some 0 } =
      check_vital_thresholds { data with bp_systolic := none }) ∧
    (check_vital_thresholds { data with heart_rate := some 0 } =
      check_vital_thresholds { data with heart_rate := none }) ∧
    (check_vital_thresholds { data with temperature := some 0 } =
      check_vital_thresholds { data with temperature := none }) ∧
    (check_vital_thresholds { data with spo2 := some 0 } =
      check_vital_thresholds { data with spo2 := none }) := by
  cases data with
  | mk sy s d hr t o =>
    refine ⟨?_, ?_, ?_, ?_, ?_, ?_, ?_, ?_⟩ <;> rfl
